import Mathlib

set_option autoImplicit false

/-
  Verification of the ElectricDrawAI-Check pipeline against its specification.

  The definitions below are a shallow embedding of the Python sources under
  backend/app.  External capabilities (the ODA converter subprocess, the
  Baidu/Tesseract OCR engines, the ernie/qianwen language models, matplotlib
  rendering, pdf2image, report generation) are modelled as oracle parameters:
  the embedding fixes only the orchestration logic written in the repository.
  Wall-clock time (Python time.time(), a float) is modelled as a Nat supplied
  explicitly; byte strings are an abstract type parameter.
-/

/-! ## Content cache (cad_service.py, module-level dict and helpers) -/

/-- One value of the module-level dict file_process_cache: the dict literal
built by update_cache with keys "status", "result", "timestamp". -/
structure CacheEntry (ρ : Type) where
  status : String
  result : Option ρ
  timestamp : Nat
deriving DecidableEq

/-- The module-level dict file_process_cache, as an association list keyed by
the md5 hex fingerprint of the submitted bytes. -/
abbrev Cache (ρ : Type) := List (String × CacheEntry ρ)

/-- CACHE_EXPIRE_SECONDS = 300 (cad_service.py line 27). -/
def CACHE_EXPIRE_SECONDS : Nat := 300

/-- Dict lookup file_process_cache[h]. -/
def cacheFind {ρ : Type} : Cache ρ → String → Option (CacheEntry ρ)
  | [], _ => none
  | (k, e) :: rest, h => if k = h then some e else cacheFind rest h

/-- Dict deletion del file_process_cache[h]. -/
def cacheErase {ρ : Type} : Cache ρ → String → Cache ρ
  | [], _ => []
  | (k, e) :: rest, h => if k = h then cacheErase rest h else (k, e) :: cacheErase rest h

/-- Dict assignment file_process_cache[h] = e (overwrites any prior binding). -/
def cacheInsert {ρ : Type} (c : Cache ρ) (h : String) (e : CacheEntry ρ) : Cache ρ :=
  (h, e) :: cacheErase c h

/-- Embedding of cad_service.check_cache (the `_`-prefixed helper, lines
95-105): returns the still-valid entry, or none; an entry strictly older than
the TTL is deleted from the dict and treated as absent.  The returned cache is
the dict after the call. -/
def check_cache {ρ : Type} (now : Nat) (c : Cache ρ) (h : String) :
    Option (CacheEntry ρ) × Cache ρ :=
  match cacheFind c h with
  | none => (none, c)
  | some e =>
    if now - e.timestamp > CACHE_EXPIRE_SECONDS then (none, cacheErase c h)
    else (some e, c)

/-- Embedding of cad_service.update_cache (lines 107-113): unconditionally
overwrites the fingerprint's entry with the given status/result and a fresh
timestamp. -/
def update_cache {ρ : Type} (now : Nat) (c : Cache ρ) (h : String)
    (status : String) (result : Option ρ) : Cache ρ :=
  cacheInsert c h ⟨status, result, now⟩

/-! ## Stage result dictionaries -/

/-- The dict stored under key "structured_data" by perform_ocr_service. -/
structure StructuredData where
  text : String
  file_type : String
  page_count : Nat
deriving DecidableEq

/-- The dict returned by perform_ocr_service (ocr_service.py lines 158-196). -/
structure OcrResult where
  status : String
  structured_data : Option StructuredData
  error : Option String
  message : Option String
deriving DecidableEq

/-- The dict returned by AIService.ai_review_service (ai_service.py lines
170-215). -/
structure AiResult where
  status : String
  review_result : Option String
  model_used : Option String
  error : Option String
  message : Option String
deriving DecidableEq

/-- The dict returned by process_dxf_service, one constructor per return
statement: the ocr_result or ai_result dict returned verbatim on a stage
failure, the fixed render-failure dict, the success dict, and the dict built
in the except-branch. -/
inductive ProcResult where
  | ofOcr (o : OcrResult)
  | ofAi (a : AiResult)
  | renderFailed
  | ok (o : OcrResult) (a : AiResult) (report : String)
  | exn (error : String) (message : String)
deriving DecidableEq

/-- The "status" key of a ProcResult dict. -/
def ProcResult.status : ProcResult → String
  | .ofOcr o => o.status
  | .ofAi a => a.status
  | .renderFailed => "failed"
  | .ok _ _ _ => "success"
  | .exn _ _ => "failed"

/-! ## process_dxf_service (cad_service.py lines 450-505) -/

/-- Outcome of the render step (save_temp_file + cad_to_png + existence check)
for the submitted content: an exception with its message, a missing/falsy PNG
path, or the PNG bytes read from the produced file. -/
inductive RenderOut (π : Type) where
  | raised (msg : String)
  | missing
  | png (bytes : π)

/-- The external capabilities invoked by process_dxf_service for one fixed
submitted content: rendering, perform_ocr_service on the PNG bytes,
ai_review_service on the OCR structured data, generate_report_service. -/
structure DxfEnv (π : Type) where
  render : RenderOut π
  ocr : π → OcrResult
  ai : Option StructuredData → AiResult
  report : AiResult → String

/-- One call to update_cache, recorded in order of execution. -/
structure CacheWrite (ρ : Type) where
  key : String
  status : String
  result : Option ρ
deriving DecidableEq

/-- Applying a recorded update_cache call to the dict. -/
def applyWrite {ρ : Type} (now : Nat) (c : Cache ρ) (w : CacheWrite ρ) : Cache ρ :=
  update_cache now c w.key w.status w.result

deriving instance DecidableEq for Except

/-- Observable outcome of one process_dxf_service call: the returned value
(.error models the CADRenderError raised on a processing cache hit; the
cached-success branch returns cache_data["result"], which is an Option),
the final dict state, the sequence of update_cache calls performed, and call
counters for each external capability (the stub-call counters of §8 of the
spec). -/
structure DxfOut where
  result : Except String (Option ProcResult)
  cache : Cache ProcResult
  writes : List (CacheWrite ProcResult)
  renderCalls : Nat
  ocrCalls : Nat
  aiCalls : Nat
  reportCalls : Nat
deriving DecidableEq

/-- The try-block of process_dxf_service (lines 469-505), entered after the
fingerprint has been marked "processing"; c is the dict before that mark.
Every path performs the "processing" write first, then one terminal write. -/
def dxfBody {π : Type} (env : DxfEnv π) (fp : String) (now : Nat)
    (c : Cache ProcResult) : DxfOut :=
  let w0 : CacheWrite ProcResult := ⟨fp, "processing", none⟩
  let c0 := applyWrite now c w0
  match env.render with
  | .raised msg =>
    let r := ProcResult.exn msg "DXF文件处理失败"
    let w : CacheWrite ProcResult := ⟨fp, "failed", some r⟩
    ⟨.ok (some r), applyWrite now c0 w, [w0, w], 1, 0, 0, 0⟩
  | .missing =>
    let r := ProcResult.renderFailed
    let w : CacheWrite ProcResult := ⟨fp, "failed", some r⟩
    ⟨.ok (some r), applyWrite now c0 w, [w0, w], 1, 0, 0, 0⟩
  | .png b =>
    let o := env.ocr b
    if o.status = "success" then
      let a := env.ai o.structured_data
      if a.status = "success" then
        let rep := env.report a
        let r := ProcResult.ok o a rep
        let w : CacheWrite ProcResult := ⟨fp, "success", some r⟩
        ⟨.ok (some r), applyWrite now c0 w, [w0, w], 1, 1, 1, 1⟩
      else
        let r := ProcResult.ofAi a
        let w : CacheWrite ProcResult := ⟨fp, "failed", some r⟩
        ⟨.ok (some r), applyWrite now c0 w, [w0, w], 1, 1, 1, 0⟩
    else
      let r := ProcResult.ofOcr o
      let w : CacheWrite ProcResult := ⟨fp, "failed", some r⟩
      ⟨.ok (some r), applyWrite now c0 w, [w0, w], 1, 1, 0, 0⟩

/-- Embedding of process_dxf_service (lines 450-505).  fp is the md5 hex of
the submitted bytes (get_file_hash); a non-expired "success" entry is returned
from the cache, a non-expired "processing" entry raises CADRenderError, and
any other outcome of check_cache (absent, expired, or a "failed" entry) falls
through to the pipeline body. -/
def process_dxf_service {π : Type} (env : DxfEnv π) (fp : String) (now : Nat)
    (c : Cache ProcResult) : DxfOut :=
  match check_cache now c fp with
  | (some e, c1) =>
    if e.status = "success" then
      ⟨.ok e.result, c1, [], 0, 0, 0, 0⟩
    else if e.status = "processing" then
      ⟨.error ("文件" ++ fp ++ "正在处理中，请稍后重试"), c1, [], 0, 0, 0, 0⟩
    else dxfBody env fp now c1
  | (none, c1) => dxfBody env fp now c1

/-! ## process_pdf_service (cad_service.py lines 507-564) -/

/-- The external capabilities invoked by process_pdf_service for one fixed
submitted content: convert_from_bytes (page images, or an exception),
perform_ocr_service per page, ai_review_service on the collected structured
data, generate_report_service.  Note the function takes no cache argument:
the source function never consults or updates file_process_cache. -/
structure PdfEnv (π : Type) where
  convert : Except String (List π)
  ocr : π → OcrResult
  ai : List StructuredData → AiResult
  report : AiResult → String

/-- The dict returned by process_pdf_service, one constructor per return
statement. -/
inductive PdfResult where
  | noPages
  | allPagesFailed
  | ofAi (a : AiResult)
  | ok (pages : List StructuredData) (a : AiResult) (report : String)
  | exn (error : String)
deriving DecidableEq

/-- The "status" key of a PdfResult dict. -/
def PdfResult.status : PdfResult → String
  | .ofAi a => a.status
  | .ok _ _ _ => "success"
  | _ => "failed"

/-- Observable outcome of one process_pdf_service call, with call counters
for the external capabilities. -/
structure PdfOut where
  result : PdfResult
  convertCalls : Nat
  ocrCalls : Nat
  aiCalls : Nat
deriving DecidableEq

/-- Embedding of process_pdf_service (lines 507-564).  Pages whose OCR dict
is not "success" are skipped by the continue statement; only their
structured_data of the successful pages is collected. -/
def process_pdf_service {π : Type} (env : PdfEnv π) : PdfOut :=
  match env.convert with
  | .error e => ⟨.exn e, 1, 0, 0⟩
  | .ok pages =>
    if pages.isEmpty then ⟨.noPages, 1, 0, 0⟩
    else
      let collected := pages.filterMap (fun p =>
        let o := env.ocr p
        if o.status = "success" then o.structured_data else none)
      if collected.isEmpty then ⟨.allPagesFailed, 1, pages.length, 0⟩
      else
        let a := env.ai collected
        if a.status = "success" then ⟨.ok collected a (env.report a), 1, pages.length, 1⟩
        else ⟨.ofAi a, 1, pages.length, 1⟩

/-! ## convert_dwg_to_dxf_from_path (cad_service.py lines 263-324) -/

/-- What one subprocess.run of the ODA converter produced: returncode, whether
the output DXF file exists, whether ezdxf.readfile accepts it, captured
stdout/stderr. -/
structure RanInfo where
  returncode : Int
  outExists : Bool
  validDxf : Bool
  stdout : String
  stderr : String
deriving DecidableEq

/-- Outcome of the k-th converter invocation attempt: subprocess.run raised
(TimeoutExpired or any other exception; both branches behave identically), or
it returned a completed process. -/
inductive AttemptOut where
  | raised (msg : String)
  | ran (info : RanInfo)

/-- What escapes the function when the loop exhausts: the CADConversionError
raised on line 324, or — when no attempt ever assigned `result` because every
subprocess.run call itself raised — the NameError that line 324 actually
triggers by reading the unassigned variable. -/
inductive ConvError where
  | conversionError (msg : String)
  | nameError
deriving DecidableEq

/-- max_retries = 1 (cad_service.py line 270). -/
def max_retries : Nat := 1

/-- Python `a or b` on strings: a if non-empty, else b (line 324,
result.stderr or result.stdout). -/
def orElseStr (a b : String) : String := if a = "" then b else a

/-- The body of the `while retry_count < max_retries` loop, phrased on the
number of remaining iterations n = max_retries - retry_count; k counts the
subprocess invocations performed so far and indexes the attempt oracle; last
is the current value of the `result` variable (none while unassigned).
Returns the function's outcome and the total number of subprocess attempts
performed. -/
def convertLoop (attempts : Nat → AttemptOut) (outPath : String) :
    Nat → Nat → Option RanInfo → Except ConvError String × Nat
  | 0, k, last =>
    match last with
    | none => (.error .nameError, k)
    | some r => (.error (.conversionError (orElseStr r.stderr r.stdout)), k)
  | n + 1, k, last =>
    match attempts k with
    | .raised _ => convertLoop attempts outPath n (k + 1) last
    | .ran info =>
      if info.returncode = 0 ∧ info.outExists then
        if info.validDxf then (.ok outPath, k + 1)
        else convertLoop attempts outPath n (k + 1) (some info)
      else convertLoop attempts outPath n (k + 1) (some info)

/-- Embedding of convert_dwg_to_dxf_from_path (lines 263-324), after the
path-validation preamble: runs the retry loop with retry_count = 0 and
`result` unassigned. -/
def convert_dwg_to_dxf_from_path (attempts : Nat → AttemptOut) (outPath : String) :
    Except ConvError String × Nat :=
  convertLoop attempts outPath max_retries 0 none

/-! ## AIService.call_ai (ai_service.py lines 52-167) -/

/-- The dict returned by the per-model callers _call_ernie / _call_qianwen:
a "status" of "success" or "failure" and a "content" string. -/
structure CallOut where
  status : String
  content : String
deriving DecidableEq

/-- The model backends as seen by call_ai: `configured m` models the truthiness
test `config["api_key"] and config["api_url"]` from __init__, and `call m`
the outcome of the per-model caller (.error models an exception escaping it,
caught by call_ai's except-branch). -/
structure AIEnv where
  configured : String → Bool
  call : String → Except String CallOut

/-- Insertion order of self.model_configs: ernie, then qianwen. -/
def model_names : List String := ["ernie", "qianwen"]

/-- self.available_models: the configured models, in priority order. -/
def available_models (env : AIEnv) : List String := model_names.filter env.configured

/-- The dict returned by call_ai. -/
structure AiCallOut where
  status : String
  content : String
  model_used : Option String
deriving DecidableEq

/-- The content of the all-models-failed return value (lines 162-167); it is a
function of the attempted model list only — no per-model error is included.
Python renders the list itself inside the f-string; the exact list rendering
is immaterial, only that nothing else appears. -/
def allFailedMsg (ms : List String) : String :=
  "【调用失败】目标模型[" ++ String.intercalate ", " ms ++ "]均调用失败，请检查网络或稍后重试"

/-- Whether one model call comes back with status "success" (the test on
line 145, with an escaping exception counting as not-success). -/
def succeedsOn (env : AIEnv) (m : String) : Bool :=
  match env.call m with
  | .ok r => r.status = "success"
  | .error _ => false

/-- The `for model_name in target_models` loop of call_ai: first success is
returned immediately with model_used set; a failure result or an exception
moves on to the next model; an exhausted list returns the generic failure
dict.  The second component records the models actually called, in order. -/
def call_ai_loop (env : AIEnv) (target : List String) :
    List String → AiCallOut × List String
  | [] => (⟨"failure", allFailedMsg target, none⟩, [])
  | m :: ms =>
    match env.call m with
    | .ok res =>
      if res.status = "success" then
        (⟨"success", res.content, some m⟩, [m])
      else
        ((call_ai_loop env target ms).1, m :: (call_ai_loop env target ms).2)
    | .error _ => ((call_ai_loop env target ms).1, m :: (call_ai_loop env target ms).2)

/-- Embedding of AIService.call_ai target-model selection (lines 82-167): a
specified model is tried alone if available and rejected synchronously
otherwise; with model_name = None all available models are tried in order. -/
def call_ai (env : AIEnv) (model_name : Option String) : AiCallOut × List String :=
  match model_name with
  | some m =>
    if m ∈ available_models env then call_ai_loop env [m] [m]
    else (⟨"failure", "指定的模型" ++ m ++ "不可用（未配置或配置错误）", none⟩, [])
  | none => call_ai_loop env (available_models env) (available_models env)

/-! ## OCRStrategyService.recognize (ocr_strategy_service.py lines 78-88) -/

/-- The dict returned by _baidu_ocr / _tesseract_ocr: status, engine name,
and either the recognized text or the error string.  (The numeric confidence
field, a float literal, is omitted from the model.) -/
structure EngineOut where
  status : String
  engine : String
  text : Option String
  error : Option String
deriving DecidableEq

/-- The two OCR engines applied to one fixed image: the outcome of _baidu_ocr,
and of _tesseract_ocr as a function of the file_type (which only selects the
Tesseract config). -/
structure OcrEnv where
  baidu : EngineOut
  tesseract : String → EngineOut

/-- Embedding of OCRStrategyService.recognize.  The second component records
the engines invoked, in order; .error models the ValueError raised on an
unknown strategy. -/
def recognize (env : OcrEnv) (file_type strategy : String) :
    Except String EngineOut × List String :=
  if strategy = "baidu" then (.ok env.baidu, ["baidu"])
  else if strategy = "tesseract" then (.ok (env.tesseract file_type), ["tesseract"])
  else if strategy = "hybrid" then
    if env.baidu.status = "success" then (.ok env.baidu, ["baidu"])
    else (.ok (env.tesseract file_type), ["baidu", "tesseract"])
  else (.error ("不支持的OCR策略：" ++ strategy), [])

/-! ## perform_ocr_service (ocr_service.py lines 158-196) -/

/-- Whether sub starts the list l (Python str.startswith on char lists). -/
def startsWithL : List Char → List Char → Bool
  | _, [] => true
  | [], _ :: _ => false
  | c :: cs, d :: ds => c = d && startsWithL cs ds

/-- Whether sub occurs somewhere in l (Python `sub in s` substring test). -/
def hasSub : List Char → List Char → Bool
  | [], sub => sub.isEmpty
  | c :: cs, sub => startsWithL (c :: cs) sub || hasSub cs sub

/-- Python substring containment `sub in s`. -/
def strContains (s sub : String) : Bool := hasSub s.data sub.data

/-- Embedding of perform_ocr_service: classifies the string returned by
baidu_ocr (which reports its own failures as message strings, hence the
substring tests).  An empty string is a success with empty structured text; a
string containing "失败" or "错误" is a failure carrying that string as the
error; anything else is a success carrying the text. -/
def perform_ocr_service (ocr_result : String) (file_type : String) : OcrResult :=
  if ocr_result = "" then
    ⟨"success", some ⟨"", file_type, 1⟩, none, none⟩
  else if strContains ocr_result "失败" || strContains ocr_result "错误" then
    ⟨"failed", none, some ocr_result, some ("OCR识别失败：" ++ ocr_result)⟩
  else
    ⟨"success", some ⟨ocr_result, file_type, 1⟩, none, none⟩

/-! ## upload_and_process_file (cad_router.py lines 16-42) -/

/-- SUPPORTED_FILE_TYPES keys, in dict insertion order. -/
def SUPPORTED_EXTS : List String := [".dwg", ".dxf", ".pdf", ".png", ".jpg", ".jpeg"]

/-- The suffix after the last dot of a character list; the whole list when no
dot occurs.  This is Python's s.split('.')[-1]. -/
def afterLastDot : List Char → List Char
  | [] => []
  | c :: rest => if c = '.' ∨ '.' ∈ rest then afterLastDot rest else c :: rest

/-- Python str.lower, character by character. -/
def toLowerStr (s : String) : String := String.mk (s.data.map Char.toLower)

/-- file.filename.lower().split('.')[-1], prefixed with a dot
(cad_router.py lines 20-21). -/
def file_ext_of (filename : String) : String :=
  "." ++ String.mk (afterLastDot (toLowerStr filename).data)

/-- The dict returned on a successful submission (lines 34-38). -/
structure SubmitResponse where
  task_id : String
  status : String
  message : String
deriving DecidableEq

/-- A raised fastapi.HTTPException: status code and detail. -/
structure HTTPError where
  status_code : Nat
  detail : String
deriving DecidableEq

/-- The scheduling collaborator: task_func.delay(...) returning the Celery
task id, or raising. -/
structure UploadEnv where
  schedule : Except String String

/-- Observable outcome of one upload_and_process_file call: the HTTP response
(or raised HTTPException) and the number of .delay scheduling calls made. -/
structure UploadOut where
  response : Except HTTPError SubmitResponse
  delayCalls : Nat
deriving DecidableEq

/-- str() of a starlette HTTPException: "code: detail". -/
def strHTTPException (code : Nat) (detail : String) : String :=
  toString code ++ ": " ++ detail

/-- The detail of the HTTPException raised on line 24 for an unsupported
extension. -/
def unsupportedDetail (ext : String) : String :=
  "不支持的文件格式：" ++ ext ++ "。目前仅支持 " ++
    String.intercalate ", " SUPPORTED_EXTS ++ " 格式。"

/-- Embedding of upload_and_process_file.  The unsupported-extension
HTTPException(400) is raised inside the try-block, so the blanket
`except Exception` on line 39 catches it and re-raises it as an
HTTPException(500) whose detail wraps str() of the original exception. -/
def upload_and_process_file (env : UploadEnv) (filename : String) : UploadOut :=
  let ext := file_ext_of filename
  if SUPPORTED_EXTS.contains ext then
    match env.schedule with
    | .ok tid => ⟨.ok ⟨tid, "processing", "文件转换任务已提交"⟩, 1⟩
    | .error e => ⟨.error ⟨500, "文件转换失败: " ++ e⟩, 1⟩
  else
    ⟨.error ⟨500, "文件转换失败: " ++ strHTTPException 400 (unsupportedDetail ext)⟩, 0⟩

/-! ## get_task_status (cad_router.py lines 44-67) and
get_review_result (review_router.py lines 134-150) -/

/-- The lifecycle state Celery's result backend reports for a task id. -/
inductive CeleryState (ρ : Type) where
  | pending
  | started
  | success (r : ρ)
  | failure (err : String)
deriving DecidableEq

/-- The Celery result backend: task ids with a recorded state. -/
abbrev TaskStore (ρ : Type) := List (String × CeleryState ρ)

/-- Backend lookup. -/
def storeFind {ρ : Type} : TaskStore ρ → String → Option (CeleryState ρ)
  | [], _ => none
  | (k, s) :: rest, id => if k = id then some s else storeFind rest id

/-- AsyncResult(task_id).state: Celery reports PENDING for a task id that the
result backend has no record of — an id that was never issued is
indistinguishable from a queued task (documented Celery behavior; the result
backend itself is outside this repository). -/
def taskState {ρ : Type} (store : TaskStore ρ) (task_id : String) : CeleryState ρ :=
  match storeFind store task_id with
  | some s => s
  | none => .pending

/-- The dict returned by get_task_status. -/
structure TaskStatusResponse (ρ : Type) where
  task_id : String
  status : String
  result : Option ρ
  error : Option String
  message : Option String
deriving DecidableEq

/-- Embedding of get_task_status (cad_router.py lines 44-67): task.ready() is
true exactly in the terminal states; the non-ready branch answers
"processing".  The endpoint returns a plain dict — no branch raises, so every
answer is an HTTP 200. -/
def get_task_status {ρ : Type} (store : TaskStore ρ) (task_id : String) :
    TaskStatusResponse ρ :=
  match taskState store task_id with
  | .success r => ⟨task_id, "completed", some r, none, none⟩
  | .failure e => ⟨task_id, "failed", none, some e, none⟩
  | _ => ⟨task_id, "processing", none, none, some "文件正在处理中，请稍后查询"⟩

/-- The dict returned by get_review_result. -/
structure ReviewResultResponse (ρ : Type) where
  status : String
  data : Option ρ
  message : String
deriving DecidableEq

/-- Embedding of get_review_result (review_router.py lines 134-150), branching
on task.state; again no branch raises. -/
def get_review_result {ρ : Type} (store : TaskStore ρ) (task_id : String) :
    ReviewResultResponse ρ :=
  match taskState store task_id with
  | .pending => ⟨"pending", none, "任务排队中，暂未执行"⟩
  | .success r => ⟨"success", some r, "AI审查完成"⟩
  | .failure e => ⟨"failure", none, "任务执行失败：" ++ e⟩
  | .started => ⟨"running", none, "任务执行中"⟩

/-! ## Helper lemmas about the cache dict -/

theorem cacheFind_erase {ρ : Type} : ∀ (c : Cache ρ) (h : String),
    cacheFind (cacheErase c h) h = none := by
  intro c h
  induction c with
  | nil => rfl
  | cons kv rest ih =>
    obtain ⟨k, e⟩ := kv
    by_cases hk : k = h
    · simpa [cacheErase, hk] using ih
    · simpa [cacheErase, cacheFind, hk] using ih

theorem cacheFind_insert_self {ρ : Type} (c : Cache ρ) (h : String) (e : CacheEntry ρ) :
    cacheFind (cacheInsert c h e) h = some e := by
  simp [cacheInsert, cacheFind]

/-! ## C9 -/

/-- C9: cache expiry is evaluated lazily by check_cache.  A Get on an absent
fingerprint answers absent and leaves the dict alone; a Get on an entry whose
age exceeds the TTL answers absent and deletes the entry (a subsequent find
misses); a Get on an entry within the TTL returns the stored entry unchanged
and leaves the dict unchanged. -/
theorem c9_lazy_expiry (ρ : Type) (now : Nat) (c : Cache ρ) (h : String)
    (e : CacheEntry ρ) :
    (cacheFind c h = none → check_cache now c h = (none, c)) ∧
    (cacheFind c h = some e → now - e.timestamp > CACHE_EXPIRE_SECONDS →
      check_cache now c h = (none, cacheErase c h) ∧
      cacheFind (check_cache now c h).2 h = none) ∧
    (cacheFind c h = some e → now - e.timestamp ≤ CACHE_EXPIRE_SECONDS →
      check_cache now c h = (some e, c)) := by
  refine ⟨?_, ?_, ?_⟩
  · intro hf
    simp [check_cache, hf]
  · intro hf hexp
    have h1 : check_cache now c h = (none, cacheErase c h) := by
      simp [check_cache, hf, hexp]
    exact ⟨h1, by rw [h1]; exact cacheFind_erase c h⟩
  · intro hf hfresh
    simp [check_cache, hf, Nat.not_lt.mpr hfresh]

/-- Witness for C9 at a concrete expired entry: 390 seconds old with a 300
second TTL, the Get misses and the entry is gone. -/
theorem c9_lazy_expiry_witness :
    check_cache 400 [("k", (⟨"success", some 5, 10⟩ : CacheEntry Nat))] "k" =
      (none, cacheErase [("k", (⟨"success", some 5, 10⟩ : CacheEntry Nat))] "k") ∧
    cacheFind (check_cache 400 [("k", (⟨"success", some 5, 10⟩ : CacheEntry Nat))] "k").2 "k"
      = none :=
  (c9_lazy_expiry Nat 400 [("k", ⟨"success", some 5, 10⟩)] "k"
    ⟨"success", some 5, 10⟩).2.1 rfl (by decide)

/-! ## C1 -/

/-- C1: while a non-expired "processing" entry exists for a fingerprint, a
second submission of the same content raises the CADRenderError (the
in-flight signal), performs no cache write (the entry is not overwritten),
leaves the dict unchanged, and invokes no pipeline stage — so no second
pipeline run is started for that fingerprint. -/
theorem c1_processing_blocks_second_run (π : Type) (env : DxfEnv π) (fp : String)
    (now : Nat) (c : Cache ProcResult) (e : CacheEntry ProcResult)
    (hfind : cacheFind c fp = some e) (hst : e.status = "processing")
    (hfresh : now - e.timestamp ≤ CACHE_EXPIRE_SECONDS) :
    process_dxf_service env fp now c =
      ⟨.error ("文件" ++ fp ++ "正在处理中，请稍后重试"), c, [], 0, 0, 0, 0⟩ := by
  simp [process_dxf_service, check_cache, hfind, hst, Nat.not_lt.mpr hfresh]

/-- Witness for C1: a concrete fingerprint whose entry is 100 seconds into
processing; the resubmission raises, writes nothing, runs nothing. -/
theorem c1_processing_blocks_second_run_witness :
    process_dxf_service
      (⟨.raised "x", fun _ => ⟨"failed", none, none, none⟩,
        fun _ => ⟨"failed", none, none, none, none⟩, fun _ => "r"⟩ : DxfEnv Nat)
      "f1" 200 [("f1", ⟨"processing", none, 100⟩)] =
      ⟨.error ("文件" ++ "f1" ++ "正在处理中，请稍后重试"),
        [("f1", ⟨"processing", none, 100⟩)], [], 0, 0, 0, 0⟩ :=
  c1_processing_blocks_second_run Nat
    ⟨.raised "x", fun _ => ⟨"failed", none, none, none⟩,
      fun _ => ⟨"failed", none, none, none, none⟩, fun _ => "r"⟩
    "f1" 200 [("f1", ⟨"processing", none, 100⟩)] ⟨"processing", none, 100⟩
    rfl rfl (by decide)

/-! ## C10 -/

/-- C10: perform_ocr_service classifies by inspecting the returned text.  An
empty OCR string yields status "success" with empty structured text; a
non-empty string containing "失败" or "错误" yields status "failed" with that
very text as the error; any other non-empty text is a success carrying the
text — so genuinely recognized drawing text containing either word is
reported as an OCR failure. -/
theorem c10_ocr_text_classification (s ft : String) :
    (perform_ocr_service "" ft = ⟨"success", some ⟨"", ft, 1⟩, none, none⟩) ∧
    (s ≠ "" → (strContains s "失败" || strContains s "错误") = true →
      perform_ocr_service s ft = ⟨"failed", none, some s, some ("OCR识别失败：" ++ s)⟩) ∧
    (s ≠ "" → strContains s "失败" = false → strContains s "错误" = false →
      perform_ocr_service s ft = ⟨"success", some ⟨s, ft, 1⟩, none, none⟩) := by
  refine ⟨by simp [perform_ocr_service], ?_, ?_⟩
  · intro hne hsub
    simp [perform_ocr_service, hne, hsub]
  · intro hne h1 h2
    simp [perform_ocr_service, hne, h1, h2]

/-- Witness for C10: the genuinely recognized drawing text "测试失败次数:0"
contains "失败" and is therefore reported as an OCR failure with the text
itself as the error. -/
theorem c10_ocr_text_classification_witness :
    perform_ocr_service "测试失败次数:0" "dxf" =
      ⟨"failed", none, some "测试失败次数:0", some ("OCR识别失败：" ++ "测试失败次数:0")⟩ :=
  (c10_ocr_text_classification "测试失败次数:0" "dxf").2.1 (by decide) (by decide)

/-! ## Helper lemmas about the DXF pipeline body -/

theorem process_dxf_no_entry {π : Type} (env : DxfEnv π) (fp : String) (now : Nat)
    (c : Cache ProcResult) (h : cacheFind c fp = none) :
    process_dxf_service env fp now c = dxfBody env fp now c := by
  simp [process_dxf_service, check_cache, h]

theorem process_dxf_success_hit {π : Type} (env : DxfEnv π) (fp : String) (now : Nat)
    (c : Cache ProcResult) (e : CacheEntry ProcResult)
    (hfind : cacheFind c fp = some e) (hst : e.status = "success")
    (hfresh : now - e.timestamp ≤ CACHE_EXPIRE_SECONDS) :
    process_dxf_service env fp now c = ⟨.ok e.result, c, [], 0, 0, 0, 0⟩ := by
  simp [process_dxf_service, check_cache, hfind, hst, Nat.not_lt.mpr hfresh]

theorem dxfBody_success {π : Type} (env : DxfEnv π) (fp : String) (now : Nat)
    (c : Cache ProcResult) (b : π) (hr : env.render = .png b)
    (ho : (env.ocr b).status = "success")
    (ha : (env.ai (env.ocr b).structured_data).status = "success") :
    ∃ r : ProcResult,
      r = ProcResult.ok (env.ocr b) (env.ai (env.ocr b).structured_data)
            (env.report (env.ai (env.ocr b).structured_data)) ∧
      dxfBody env fp now c =
        ⟨.ok (some r),
         update_cache now (update_cache now c fp "processing" none) fp "success" (some r),
         [⟨fp, "processing", none⟩, ⟨fp, "success", some r⟩], 1, 1, 1, 1⟩ := by
  refine ⟨_, rfl, ?_⟩
  simp [dxfBody, hr, ho, ha, applyWrite]

theorem dxfBody_ocr_failed {π : Type} (env : DxfEnv π) (fp : String) (now : Nat)
    (c : Cache ProcResult) (b : π) (hr : env.render = .png b)
    (ho : (env.ocr b).status ≠ "success") :
    dxfBody env fp now c =
      ⟨.ok (some (.ofOcr (env.ocr b))),
       update_cache now (update_cache now c fp "processing" none) fp "failed"
         (some (.ofOcr (env.ocr b))),
       [⟨fp, "processing", none⟩, ⟨fp, "failed", some (.ofOcr (env.ocr b))⟩],
       1, 1, 0, 0⟩ := by
  simp [dxfBody, hr, ho, applyWrite]

theorem dxfBody_ai_failed {π : Type} (env : DxfEnv π) (fp : String) (now : Nat)
    (c : Cache ProcResult) (b : π) (hr : env.render = .png b)
    (ho : (env.ocr b).status = "success")
    (ha : (env.ai (env.ocr b).structured_data).status ≠ "success") :
    dxfBody env fp now c =
      ⟨.ok (some (.ofAi (env.ai (env.ocr b).structured_data))),
       update_cache now (update_cache now c fp "processing" none) fp "failed"
         (some (.ofAi (env.ai (env.ocr b).structured_data))),
       [⟨fp, "processing", none⟩,
        ⟨fp, "failed", some (.ofAi (env.ai (env.ocr b).structured_data))⟩],
       1, 1, 1, 0⟩ := by
  simp [dxfBody, hr, ho, ha, applyWrite]

theorem dxfBody_first_write {π : Type} (env : DxfEnv π) (fp : String) (now : Nat)
    (c : Cache ProcResult) :
    (dxfBody env fp now c).writes.head? = some ⟨fp, "processing", none⟩ ∧
    (dxfBody env fp now c).renderCalls = 1 := by
  unfold dxfBody
  cases env.render with
  | raised msg => simp
  | missing => simp
  | png b =>
    by_cases ho : (env.ocr b).status = "success"
    · by_cases ha : (env.ai (env.ocr b).structured_data).status = "success"
      · simp [ho, ha]
      · simp [ho, ha]
    · simp [ho]

/-! ## C2 -/

/-- C2, amended part: for the DXF service, a fresh content whose pipeline run
succeeds is cached, and a second byte-identical submission within the TTL is
answered from the cache with the very same result dict, with no cache write
and zero pipeline-stage calls. -/
theorem c2_dxf_second_submission_cached (π : Type) (env : DxfEnv π) (fp : String)
    (now1 now2 : Nat) (c : Cache ProcResult) (b : π)
    (h0 : cacheFind c fp = none)
    (hr : env.render = .png b)
    (ho : (env.ocr b).status = "success")
    (ha : (env.ai (env.ocr b).structured_data).status = "success")
    (hfresh : now2 - now1 ≤ CACHE_EXPIRE_SECONDS) :
    ∃ r : ProcResult,
      r.status = "success" ∧
      (process_dxf_service env fp now1 c).result = .ok (some r) ∧
      (process_dxf_service env fp now1 c).renderCalls = 1 ∧
      process_dxf_service env fp now2 (process_dxf_service env fp now1 c).cache =
        ⟨.ok (some r), (process_dxf_service env fp now1 c).cache, [], 0, 0, 0, 0⟩ := by
  obtain ⟨r, hrdef, hbody⟩ := dxfBody_success env fp now1 c b hr ho ha
  have h1 : process_dxf_service env fp now1 c = dxfBody env fp now1 c :=
    process_dxf_no_entry env fp now1 c h0
  rw [h1, hbody]
  refine ⟨r, by rw [hrdef]; rfl, rfl, rfl, ?_⟩
  exact process_dxf_success_hit env fp now2 _ ⟨"success", some r, now1⟩
    (cacheFind_insert_self _ fp _) rfl hfresh

/-- Witness for the amended C2 at a concrete successful environment. -/
theorem c2_dxf_second_submission_cached_witness :
    ∃ r : ProcResult,
      r.status = "success" ∧
      (process_dxf_service
        (⟨.png 7, fun _ => ⟨"success", some ⟨"t", "dxf", 1⟩, none, none⟩,
          fun _ => ⟨"success", some "ok", some "ernie", none, none⟩,
          fun _ => "rep"⟩ : DxfEnv Nat) "f2" 100 []).result = .ok (some r) ∧
      (process_dxf_service
        (⟨.png 7, fun _ => ⟨"success", some ⟨"t", "dxf", 1⟩, none, none⟩,
          fun _ => ⟨"success", some "ok", some "ernie", none, none⟩,
          fun _ => "rep"⟩ : DxfEnv Nat) "f2" 100 []).renderCalls = 1 ∧
      process_dxf_service
        (⟨.png 7, fun _ => ⟨"success", some ⟨"t", "dxf", 1⟩, none, none⟩,
          fun _ => ⟨"success", some "ok", some "ernie", none, none⟩,
          fun _ => "rep"⟩ : DxfEnv Nat) "f2" 350
        (process_dxf_service
          (⟨.png 7, fun _ => ⟨"success", some ⟨"t", "dxf", 1⟩, none, none⟩,
            fun _ => ⟨"success", some "ok", some "ernie", none, none⟩,
            fun _ => "rep"⟩ : DxfEnv Nat) "f2" 100 []).cache =
        ⟨.ok (some r),
         (process_dxf_service
           (⟨.png 7, fun _ => ⟨"success", some ⟨"t", "dxf", 1⟩, none, none⟩,
             fun _ => ⟨"success", some "ok", some "ernie", none, none⟩,
             fun _ => "rep"⟩ : DxfEnv Nat) "f2" 100 []).cache, [], 0, 0, 0, 0⟩ :=
  c2_dxf_second_submission_cached Nat
    ⟨.png 7, fun _ => ⟨"success", some ⟨"t", "dxf", 1⟩, none, none⟩,
      fun _ => ⟨"success", some "ok", some "ernie", none, none⟩, fun _ => "rep"⟩
    "f2" 100 350 [] 7 rfl rfl rfl rfl (by decide)

/-- A PDF submission whose single page is recognized and reviewed
successfully: the pipeline capabilities for one fixed content. -/
def pdfEnvHit : PdfEnv Nat :=
  ⟨.ok [0], fun _ => ⟨"success", some ⟨"图纸文本", "pdf", 1⟩, none, none⟩,
   fun _ => ⟨"success", some "审查通过", some "ernie", none, none⟩,
   fun _ => "report.pdf"⟩

/-- Counterexample to C2 as stated ("for every supported format"):
process_pdf_service takes no cache state at all (see its type), so a second
byte-identical PDF submission evaluates the same function again.  Each
submission performs the page conversion and one OCR call even though the
first submission already succeeded — the second submission is not answered
from any cache, and the pipeline is invoked twice across the two
submissions. -/
theorem c2_counterexample :
    (process_pdf_service pdfEnvHit).result.status = "success" ∧
    (process_pdf_service pdfEnvHit).convertCalls = 1 ∧
    (process_pdf_service pdfEnvHit).ocrCalls = 1 ∧
    (process_pdf_service pdfEnvHit).convertCalls +
      (process_pdf_service pdfEnvHit).convertCalls = 2 := by
  decide

/-! ## C5 -/

/-- C5, amended: in the DXF service a stage failure aborts the run and
propagates — an OCR failure is returned verbatim and cached as the failed
outcome with no AI or report call; an AI failure likewise with no report
call.  In the PDF service only the all-pages-failed case fails: the
per-page OCR errors themselves never abort the run (see the
counterexample). -/
theorem c5_stage_failure_propagation (π : Type) (env : DxfEnv π) (penv : PdfEnv π)
    (fp : String) (now : Nat) (c : Cache ProcResult) (b : π) (pages : List π) :
    (cacheFind c fp = none → env.render = .png b → (env.ocr b).status ≠ "success" →
      (process_dxf_service env fp now c).result = .ok (some (.ofOcr (env.ocr b))) ∧
      (process_dxf_service env fp now c).aiCalls = 0 ∧
      (process_dxf_service env fp now c).reportCalls = 0 ∧
      cacheFind (process_dxf_service env fp now c).cache fp =
        some ⟨"failed", some (.ofOcr (env.ocr b)), now⟩) ∧
    (cacheFind c fp = none → env.render = .png b → (env.ocr b).status = "success" →
      (env.ai (env.ocr b).structured_data).status ≠ "success" →
      (process_dxf_service env fp now c).result =
        .ok (some (.ofAi (env.ai (env.ocr b).structured_data))) ∧
      (process_dxf_service env fp now c).reportCalls = 0 ∧
      cacheFind (process_dxf_service env fp now c).cache fp =
        some ⟨"failed", some (.ofAi (env.ai (env.ocr b).structured_data)), now⟩) ∧
    (penv.convert = .ok pages → pages ≠ [] →
      (∀ p ∈ pages, (penv.ocr p).status ≠ "success") →
      process_pdf_service penv = ⟨.allPagesFailed, 1, pages.length, 0⟩) := by
  refine ⟨?_, ?_, ?_⟩
  · intro h0 hr ho
    rw [process_dxf_no_entry env fp now c h0, dxfBody_ocr_failed env fp now c b hr ho]
    exact ⟨rfl, rfl, rfl, cacheFind_insert_self _ fp _⟩
  · intro h0 hr ho ha
    rw [process_dxf_no_entry env fp now c h0, dxfBody_ai_failed env fp now c b hr ho ha]
    exact ⟨rfl, rfl, cacheFind_insert_self _ fp _⟩
  · intro hc hne hall
    have hcol : pages.filterMap (fun p =>
        let o := penv.ocr p
        if o.status = "success" then o.structured_data else none) = [] := by
      rw [List.filterMap_eq_nil_iff]
      intro p hp
      simp [hall p hp]
    cases pages with
    | nil => exact absurd rfl hne
    | cons q qs => simp [process_pdf_service, hc, hcol]

/-- Witness for the amended C5: a DXF run whose OCR stage fails is returned
as that very failure, with no AI call and a "failed" cache entry. -/
theorem c5_stage_failure_propagation_witness :
    (process_dxf_service
      (⟨.png 3, fun _ => ⟨"failed", none, some "引擎挂了", none⟩,
        fun _ => ⟨"success", none, none, none, none⟩, fun _ => "rep"⟩ : DxfEnv Nat)
      "f5" 100 []).result =
      .ok (some (.ofOcr ⟨"failed", none, some "引擎挂了", none⟩)) ∧
    (process_dxf_service
      (⟨.png 3, fun _ => ⟨"failed", none, some "引擎挂了", none⟩,
        fun _ => ⟨"success", none, none, none, none⟩, fun _ => "rep"⟩ : DxfEnv Nat)
      "f5" 100 []).aiCalls = 0 ∧
    (process_dxf_service
      (⟨.png 3, fun _ => ⟨"failed", none, some "引擎挂了", none⟩,
        fun _ => ⟨"success", none, none, none, none⟩, fun _ => "rep"⟩ : DxfEnv Nat)
      "f5" 100 []).reportCalls = 0 ∧
    cacheFind (process_dxf_service
      (⟨.png 3, fun _ => ⟨"failed", none, some "引擎挂了", none⟩,
        fun _ => ⟨"success", none, none, none, none⟩, fun _ => "rep"⟩ : DxfEnv Nat)
      "f5" 100 []).cache "f5" =
      some ⟨"failed", some (.ofOcr ⟨"failed", none, some "引擎挂了", none⟩), 100⟩ :=
  (c5_stage_failure_propagation Nat
    ⟨.png 3, fun _ => ⟨"failed", none, some "引擎挂了", none⟩,
      fun _ => ⟨"success", none, none, none, none⟩, fun _ => "rep"⟩
    ⟨.ok [], fun _ => ⟨"failed", none, none, none⟩,
      fun _ => ⟨"failed", none, none, none, none⟩, fun _ => "r"⟩
    "f5" 100 [] 3 []).1 rfl rfl (by decide)

/-- A two-page PDF whose first page fails OCR and whose second page succeeds,
with AI review succeeding on the surviving page. -/
def pdfEnvSwallow : PdfEnv Nat :=
  ⟨.ok [0, 1],
   fun p => if p = 0 then ⟨"failed", none, some "百度OCR接口错误", some "OCR识别失败"⟩
            else ⟨"success", some ⟨"第二页文本", "pdf", 1⟩, none, none⟩,
   fun _ => ⟨"success", some "审查通过", some "ernie", none, none⟩,
   fun _ => "report.pdf"⟩

/-- Counterexample to C5 as stated: in process_pdf_service the first page's
OCR stage fails, yet the job completes with status "success" carrying only
the second page — the stage-level error is swallowed (downgraded to a log
line by the continue statement) and processing continues past the failure. -/
theorem c5_counterexample :
    (pdfEnvSwallow.ocr 0).status = "failed" ∧
    (process_pdf_service pdfEnvSwallow).result =
      .ok [⟨"第二页文本", "pdf", 1⟩]
        ⟨"success", some "审查通过", some "ernie", none, none⟩ "report.pdf" ∧
    (process_pdf_service pdfEnvSwallow).result.status = "success" ∧
    (process_pdf_service pdfEnvSwallow).ocrCalls = 2 := by
  decide

/-! ## C8 -/

/-- C8, amended: a non-expired "success" cache entry is terminal — a
resubmission of the fingerprint performs no cache write, leaves the dict
unchanged, and runs no pipeline stage.  A non-expired "failed" entry is not
terminal: a resubmission's first cache write regresses the fingerprint's
entry to "processing" and the pipeline runs again. -/
theorem c8_success_terminal_failed_reentered (π : Type) (env : DxfEnv π)
    (fp : String) (now : Nat) (c : Cache ProcResult) (e : CacheEntry ProcResult)
    (hfind : cacheFind c fp = some e)
    (hfresh : now - e.timestamp ≤ CACHE_EXPIRE_SECONDS) :
    (e.status = "success" →
      process_dxf_service env fp now c = ⟨.ok e.result, c, [], 0, 0, 0, 0⟩) ∧
    (e.status = "failed" →
      (process_dxf_service env fp now c).writes.head? =
        some ⟨fp, "processing", none⟩ ∧
      (process_dxf_service env fp now c).renderCalls = 1) := by
  constructor
  · intro hst
    exact process_dxf_success_hit env fp now c e hfind hst hfresh
  · intro hst
    have hred : process_dxf_service env fp now c = dxfBody env fp now c := by
      simp [process_dxf_service, check_cache, hfind, hst, Nat.not_lt.mpr hfresh]
    rw [hred]
    exact dxfBody_first_write env fp now c

/-- Witness for the amended C8: a cached non-expired success entry is
returned untouched. -/
theorem c8_success_terminal_failed_reentered_witness :
    process_dxf_service
      (⟨.raised "x", fun _ => ⟨"failed", none, none, none⟩,
        fun _ => ⟨"failed", none, none, none, none⟩, fun _ => "r"⟩ : DxfEnv Nat)
      "f8" 200 [("f8", ⟨"success", some (.exn "e" "m"), 100⟩)] =
      ⟨.ok (some (.exn "e" "m")),
        [("f8", ⟨"success", some (.exn "e" "m"), 100⟩)], [], 0, 0, 0, 0⟩ :=
  (c8_success_terminal_failed_reentered Nat
    ⟨.raised "x", fun _ => ⟨"failed", none, none, none⟩,
      fun _ => ⟨"failed", none, none, none, none⟩, fun _ => "r"⟩
    "f8" 200 [("f8", ⟨"success", some (.exn "e" "m"), 100⟩)]
    ⟨"success", some (.exn "e" "m"), 100⟩ rfl (by decide)).1 rfl

/-- A pipeline environment whose render step raises, for exercising a re-run
of a previously failed fingerprint. -/
def dxfEnvReRun : DxfEnv Nat :=
  ⟨.raised "render blew up", fun _ => ⟨"failed", none, none, none⟩,
   fun _ => ⟨"failed", none, none, none, none⟩, fun _ => "r"⟩

/-- A cache holding a non-expired terminal "failed" entry for fingerprint
f8x, 50 seconds old at time 150. -/
def failedCache : Cache ProcResult :=
  [("f8x", ⟨"failed", some (.exn "old error" "DXF文件处理失败"), 100⟩)]

/-- Counterexample to C8 as stated: the fingerprint's record is in the
terminal "failed" state and not expired, yet a resubmission's first cache
write moves it back to "processing" and the pipeline runs again — the record
leaves a terminal state. -/
theorem c8_counterexample :
    (cacheFind failedCache "f8x").map CacheEntry.status = some "failed" ∧
    (process_dxf_service dxfEnvReRun "f8x" 150 failedCache).writes.head? =
      some ⟨"f8x", "processing", none⟩ ∧
    (process_dxf_service dxfEnvReRun "f8x" 150 failedCache).renderCalls = 1 ∧
    (cacheFind (process_dxf_service dxfEnvReRun "f8x" 150 failedCache).cache
      "f8x").map CacheEntry.timestamp = some 150 := by
  decide

/-! ## C3 -/

/-- A converter whose subprocess always completes with returncode 1, writing
"conversion crashed" to stderr. -/
def attemptsAlwaysFail : Nat → AttemptOut :=
  fun _ => .ran ⟨1, false, false, "", "conversion crashed"⟩

/-- A converter whose subprocess invocation itself always raises (e.g. a
timeout). -/
def attemptsAlwaysRaise : Nat → AttemptOut := fun _ => .raised "subprocess timeout"

/-- C3: the retry wrapper does NOT perform two attempts.  Because the loop is
`while retry_count < max_retries` with max_retries = 1 and retry_count
starting at 0, a converter that always fails is invoked exactly once, after
which CADConversionError is raised carrying the single attempt's stderr — one
total attempt, zero retries, contradicting the function's own comment and
error message ("最多重试1次" / "已重试1次") and the claimed two total
attempts.  When the single attempt itself raises, line 324 reads the
never-assigned `result` variable, so the function dies with a NameError
instead of the conversion error.  In general no input ever causes more than
one subprocess attempt. -/
theorem c3_one_attempt_not_two :
    convert_dwg_to_dxf_from_path attemptsAlwaysFail "out.dxf" =
      (.error (.conversionError "conversion crashed"), 1) ∧
    convert_dwg_to_dxf_from_path attemptsAlwaysRaise "out.dxf" =
      (.error .nameError, 1) ∧
    (∀ (attempts : Nat → AttemptOut) (outPath : String),
      (convert_dwg_to_dxf_from_path attempts outPath).2 = 1) := by
  refine ⟨by decide, by decide, ?_⟩
  intro attempts outPath
  show (convertLoop attempts outPath 1 0 none).2 = 1
  cases h : attempts 0 with
  | raised msg => simp [convertLoop, h]
  | ran info =>
    by_cases h1 : info.returncode = 0 ∧ info.outExists
    · by_cases h2 : info.validDxf
      · simp [convertLoop, h, h1, h2]
      · simp [convertLoop, h, h1, h2]
    · simp [convertLoop, h, h1]

/-! ## C6 -/

/-- A scheduler that would accept the task, to show it is never invoked. -/
def uploadEnvOk : UploadEnv := ⟨.ok "tid-1"⟩

/-- C6: submitting the unrecognized filename "drawing.xyz" schedules no task
(so no Job and no CacheEntry can come into being), but the rejection reaches
the client as a 500-class error, not the 4xx-class validation error: the
HTTPException(400) raised inside the try-block is caught by the blanket
`except Exception` and re-raised with status_code 500. -/
theorem c6_unsupported_rejected_as_500 :
    file_ext_of "drawing.xyz" = ".xyz" ∧
    upload_and_process_file uploadEnvOk "drawing.xyz" =
      ⟨.error ⟨500, "文件转换失败: " ++ strHTTPException 400 (unsupportedDetail ".xyz")⟩, 0⟩ ∧
    (upload_and_process_file uploadEnvOk "drawing.xyz").delayCalls = 0 := by
  decide

/-! ## C7 -/

/-- Counterexample to C7: polling a job id that was never issued does not
fail with NotFound — both poll endpoints return a normal response body (their
return types carry no error case at all) reporting the task as
processing/pending, indistinguishable from a queued job. -/
theorem c7_counterexample :
    get_task_status ([] : TaskStore Nat) "never-issued" =
      ⟨"never-issued", "processing", none, none, some "文件正在处理中，请稍后查询"⟩ ∧
    get_review_result ([] : TaskStore Nat) "never-issued" =
      ⟨"pending", none, "任务排队中，暂未执行"⟩ := by
  decide

/-- C7, amended: polling never blocks and never raises — it returns the
current snapshot: an id unknown to the result backend is reported as
processing (cad router) / pending (review router) with an ordinary 200
response, and known terminal ids are reported with their result or error. -/
theorem c7_poll_snapshot (ρ : Type) (store : TaskStore ρ) (id : String)
    (r : ρ) (e : String) :
    (storeFind store id = none →
      get_task_status store id =
        ⟨id, "processing", none, none, some "文件正在处理中，请稍后查询"⟩ ∧
      get_review_result store id = ⟨"pending", none, "任务排队中，暂未执行"⟩) ∧
    (storeFind store id = some (.success r) →
      get_task_status store id = ⟨id, "completed", some r, none, none⟩ ∧
      get_review_result store id = ⟨"success", some r, "AI审查完成"⟩) ∧
    (storeFind store id = some (.failure e) →
      get_task_status store id = ⟨id, "failed", none, some e, none⟩ ∧
      get_review_result store id = ⟨"failure", none, "任务执行失败：" ++ e⟩) := by
  refine ⟨?_, ?_, ?_⟩ <;> intro h <;>
    exact ⟨by simp [get_task_status, taskState, h],
           by simp [get_review_result, taskState, h]⟩

/-- Witness for the amended C7 at a concrete completed task. -/
theorem c7_poll_snapshot_witness :
    get_task_status [("t1", CeleryState.success (42 : Nat))] "t1" =
      ⟨"t1", "completed", some 42, none, none⟩ ∧
    get_review_result [("t1", CeleryState.success (42 : Nat))] "t1" =
      ⟨"success", some 42, "AI审查完成"⟩ :=
  (c7_poll_snapshot Nat [("t1", .success 42)] "t1" 42 "").2.1 rfl

/-! ## C4 -/

/-- The models the call_ai loop consumes before stopping: every model up to
and including the first success, or the whole list when none succeeds. -/
def untilFirstSuccess (env : AIEnv) : List String → List String
  | [] => []
  | m :: ms => if succeedsOn env m then [m] else m :: untilFirstSuccess env ms

theorem call_ai_loop_trace (env : AIEnv) (target : List String) :
    ∀ ms, (call_ai_loop env target ms).2 = untilFirstSuccess env ms := by
  intro ms
  induction ms with
  | nil => rfl
  | cons m ms ih =>
    cases h : env.call m with
    | error e => simp [call_ai_loop, untilFirstSuccess, succeedsOn, h, ih]
    | ok res =>
      by_cases hs : res.status = "success"
      · simp [call_ai_loop, untilFirstSuccess, succeedsOn, h, hs]
      · simp [call_ai_loop, untilFirstSuccess, succeedsOn, h, hs, ih]

theorem untilFirstSuccess_starts (env : AIEnv) :
    ∀ ms, untilFirstSuccess env ms <+: ms := by
  intro ms
  induction ms with
  | nil => simp [untilFirstSuccess]
  | cons m ms ih =>
    by_cases h : succeedsOn env m
    · simp only [untilFirstSuccess, h, if_pos]
      exact ⟨ms, rfl⟩
    · simp only [untilFirstSuccess, h, if_neg, Bool.false_eq_true, not_false_iff]
      exact (List.cons_prefix_cons).2 ⟨rfl, ih⟩

theorem call_ai_loop_all_fail (env : AIEnv) (target : List String) :
    ∀ ms, (∀ x ∈ ms, succeedsOn env x = false) →
      call_ai_loop env target ms = (⟨"failure", allFailedMsg target, none⟩, ms) := by
  intro ms
  induction ms with
  | nil => intro _; rfl
  | cons m ms ih =>
    intro hall
    have hm : succeedsOn env m = false := hall m (List.mem_cons_self m ms)
    have hrest : ∀ x ∈ ms, succeedsOn env x = false :=
      fun x hx => hall x (List.mem_cons_of_mem m hx)
    cases h : env.call m with
    | error e => simp [call_ai_loop, h, ih hrest]
    | ok res =>
      have hs : ¬ res.status = "success" := by
        intro hc
        rw [succeedsOn, h] at hm
        simp [hc] at hm
      simp [call_ai_loop, h, hs, ih hrest]

theorem call_ai_loop_first_success (env : AIEnv) (target : List String) :
    ∀ (l₁ : List String) (m : String) (l₂ : List String),
      (∀ x ∈ l₁, succeedsOn env x = false) → succeedsOn env m = true →
      ∃ res, env.call m = .ok res ∧ res.status = "success" ∧
        call_ai_loop env target (l₁ ++ m :: l₂) =
          (⟨"success", res.content, some m⟩, l₁ ++ [m]) := by
  intro l₁
  induction l₁ with
  | nil =>
    intro m l₂ _ hm
    cases h : env.call m with
    | error e =>
      rw [succeedsOn, h] at hm
      simp at hm
    | ok res =>
      have hs : res.status = "success" := by
        rw [succeedsOn, h] at hm
        simpa using hm
      exact ⟨res, rfl, hs, by simp [call_ai_loop, h, hs]⟩
  | cons x xs ih =>
    intro m l₂ hall hm
    have hx : succeedsOn env x = false := hall x (List.mem_cons_self x xs)
    obtain ⟨res, h1, h2, h3⟩ :=
      ih m l₂ (fun y hy => hall y (List.mem_cons_of_mem x hy)) hm
    refine ⟨res, h1, h2, ?_⟩
    cases h : env.call x with
    | error e => simp [call_ai_loop, h, h3]
    | ok r0 =>
      have hr0 : ¬ r0.status = "success" := by
        intro hc
        rw [succeedsOn, h] at hx
        simp [hc] at hx
      simp [call_ai_loop, h, hr0, h3]

/-- C4, amended: both failover sites try the available backends strictly in
priority order with no backend retried, and the first success short-circuits
with the backend identified; but on total failure the error does NOT carry
every attempted backend's failure: the hybrid OCR strategy returns exactly
the fallback engine's failure dict (Baidu's error is dropped), and call_ai
returns a generic message naming only the model list. -/
theorem c4_failover_order_and_last_error (oenv : OcrEnv) (ft : String)
    (aenv : AIEnv) (l₁ l₂ : List String) (m : String) :
    (oenv.baidu.status = "success" →
      recognize oenv ft "hybrid" = (.ok oenv.baidu, ["baidu"])) ∧
    (oenv.baidu.status ≠ "success" →
      recognize oenv ft "hybrid" = (.ok (oenv.tesseract ft), ["baidu", "tesseract"])) ∧
    ((call_ai aenv none).2 <+: available_models aenv ∧
      ((call_ai aenv none).2).Nodup) ∧
    (available_models aenv = l₁ ++ m :: l₂ →
      (∀ x ∈ l₁, succeedsOn aenv x = false) → succeedsOn aenv m = true →
      ∃ res, aenv.call m = .ok res ∧ res.status = "success" ∧
        call_ai aenv none = (⟨"success", res.content, some m⟩, l₁ ++ [m])) ∧
    ((∀ x ∈ available_models aenv, succeedsOn aenv x = false) →
      call_ai aenv none =
        (⟨"failure", allFailedMsg (available_models aenv), none⟩,
         available_models aenv)) := by
  have hcall : call_ai aenv none =
      call_ai_loop aenv (available_models aenv) (available_models aenv) := rfl
  have hnd : (available_models aenv).Nodup :=
    List.Nodup.filter _ (by decide : model_names.Nodup)
  refine ⟨?_, ?_, ⟨?_, ?_⟩, ?_, ?_⟩
  · intro h
    simp [recognize, h]
  · intro h
    simp [recognize, h]
  · rw [hcall, call_ai_loop_trace]
    exact untilFirstSuccess_starts aenv _
  · rw [hcall, call_ai_loop_trace]
    exact ((untilFirstSuccess_starts aenv _).sublist).nodup hnd
  · intro hsplit hall hm
    obtain ⟨res, h1, h2, h3⟩ :=
      call_ai_loop_first_success aenv (available_models aenv) l₁ m l₂ hall hm
    rw [hsplit] at h3
    refine ⟨res, h1, h2, ?_⟩
    rw [hcall, hsplit]
    exact h3
  · intro hall
    rw [hcall, call_ai_loop_all_fail aenv _ _ hall]

/-- Witness for the amended C4: with ernie failing and qianwen succeeding,
the call returns qianwen's content, identifies qianwen, and the trace is
exactly [ernie, qianwen]. -/
theorem c4_failover_order_and_last_error_witness :
    ∃ res,
      (⟨fun _ => true,
        fun m => if m = "ernie" then .ok ⟨"failure", "ernie down"⟩
                 else .ok ⟨"success", "审查完成"⟩⟩ : AIEnv).call "qianwen" = .ok res ∧
      res.status = "success" ∧
      call_ai
        (⟨fun _ => true,
          fun m => if m = "ernie" then .ok ⟨"failure", "ernie down"⟩
                   else .ok ⟨"success", "审查完成"⟩⟩ : AIEnv) none =
        (⟨"success", res.content, some "qianwen"⟩, ["ernie", "qianwen"]) :=
  (c4_failover_order_and_last_error
    ⟨⟨"failed", "baidu", none, none⟩, fun _ => ⟨"failed", "tesseract", none, none⟩⟩
    "image"
    ⟨fun _ => true,
      fun m => if m = "ernie" then .ok ⟨"failure", "ernie down"⟩
               else .ok ⟨"success", "审查完成"⟩⟩
    ["ernie"] [] "qianwen").2.2.2.1 (by decide) (by decide) (by decide)

/-- Both OCR engines fail, with distinguishable error strings. -/
def ocrEnvBothFail : OcrEnv :=
  ⟨⟨"failed", "baidu", none, some "baidu exploded EA"⟩,
   fun _ => ⟨"failed", "tesseract", none, some "tesseract exploded EB"⟩⟩

/-- Whether any field of an engine result dict contains the string s. -/
def engineMentions (e : EngineOut) (s : String) : Bool :=
  strContains e.status s || strContains e.engine s ||
    (match e.text with | some t => strContains t s | none => false) ||
    (match e.error with | some t => strContains t s | none => false)

/-- Both AI models fail, with distinguishable error contents. -/
def aiEnvBothFail : AIEnv :=
  ⟨fun _ => true,
   fun m => if m = "ernie" then .ok ⟨"failure", "ernie exploded E1"⟩
            else .ok ⟨"failure", "qianwen exploded E2"⟩⟩

/-- Counterexample to C4 as stated: when every backend fails, the failure
does not carry the failure of each attempted backend.  The hybrid OCR call
returns exactly the Tesseract failure dict — no field of it mentions Baidu's
error — and call_ai returns a generic message that contains neither model's
error content. -/
theorem c4_counterexample :
    recognize ocrEnvBothFail "image" "hybrid" =
      (.ok ⟨"failed", "tesseract", none, some "tesseract exploded EB"⟩,
       ["baidu", "tesseract"]) ∧
    engineMentions ⟨"failed", "tesseract", none, some "tesseract exploded EB"⟩
      "baidu exploded EA" = false ∧
    call_ai aiEnvBothFail none =
      (⟨"failure", allFailedMsg ["ernie", "qianwen"], none⟩, ["ernie", "qianwen"]) ∧
    strContains (allFailedMsg ["ernie", "qianwen"]) "E1" = false ∧
    strContains (allFailedMsg ["ernie", "qianwen"]) "E2" = false := by
  decide
